import Mathlib

/-!
Verification of the mrvdot/appengine authentication and session layer.

The Go sources are shallowly embedded: package-level mutable maps become an
explicit state structure `St`, the ambient runtime (current time, request id,
crypto primitives, URL parsing) becomes an environment `Env`, machine times
are integers counting nanoseconds, Go runes and bytes are natural numbers,
and a Go panic is modelled as `none`, or as a `panicked` flag, on the
functions that can raise one.  Go pointer identity for `*Session` keys is
modelled as structural equality, which coincides with it in every state the
theorems below construct (each distinct session value is stored once).
-/

namespace AEA

/-- Bytes and runes are naturals (a byte stays below 256, a rune below 0x110000). -/
abbrev Bytes := List Nat

/-! ## Slug generation (aeutils, src/unnamed/part_000)

Go strings are modelled as lists of runes.  The external `unicode` package is
modelled on the ASCII plane: `unicode.IsLetter`, `unicode.IsDigit`,
`unicode.IsSpace` and `strings.ToLower` agree with the definitions below on
ASCII input; the full Unicode tables live outside this repository. -/

def isUpperRune (r : Nat) : Bool := 65 ≤ r && r ≤ 90

def isLowerRune (r : Nat) : Bool := 97 ≤ r && r ≤ 122

def isLetterRune (r : Nat) : Bool := isUpperRune r || isLowerRune r

def isDigitRune (r : Nat) : Bool := 48 ≤ r && r ≤ 57

def toLowerRune (r : Nat) : Nat := if isUpperRune r then r + 32 else r

/-- ASCII white space, as trimmed by strings.TrimSpace: space, tab, LF, VT, FF, CR. -/
def isSpaceRune (r : Nat) : Bool :=
  r = 32 || r = 9 || r = 10 || r = 11 || r = 12 || r = 13

/-- strings.TrimSpace on a rune list: drop leading and trailing white space. -/
def trimSpaceRunes (l : List Nat) : List Nat :=
  ((l.dropWhile isSpaceRune).reverse.dropWhile isSpaceRune).reverse

/-- strings.ToLower on a rune list. -/
def toLowerRunes (l : List Nat) : List Nat := l.map toLowerRune

/-- The rune mapping passed to strings.Map inside GenerateSlug.  The Go
callback returns a rune, with a negative value meaning drop; `none` encodes
the negative return.  Space (32) and hyphen (45) map to hyphen; underscore
(95), letters and digits are kept unchanged; everything else is dropped. -/
def slugMapRune (r : Nat) : Option Nat :=
  if r = 32 ∨ r = 45 then some 45
  else if r = 95 ∨ isLetterRune r ∨ isDigitRune r then some r
  else none

/-- GenerateSlug (src/unnamed/part_000 lines 50-62):
strings.Map(callback, strings.ToLower(strings.TrimSpace(s))). -/
def GenerateSlug (l : List Nat) : List Nat :=
  (toLowerRunes (trimSpaceRunes l)).filterMap slugMapRune

/-- The per-rune normalisation that claim C7 describes: space, underscore and
hyphen all normalise to a hyphen, other non-alphanumerics are removed. -/
def slugRuneClaimed (r : Nat) : Option Nat :=
  if r = 32 then some 45
  else if r = 95 then some 45
  else if r = 45 then some 45
  else if isLetterRune r then some r
  else if isDigitRune r then some r
  else none

/-- Slug generation exactly as claim C7 words it, for comparison with the source. -/
def generateSlugClaimed (l : List Nat) : List Nat :=
  (toLowerRunes (trimSpaceRunes l)).filterMap slugRuneClaimed

/-- The per-rune normalisation of the amended claim: space and hyphen
normalise to a hyphen, underscore is preserved unchanged, letters and digits
are kept, every other rune is removed. -/
def slugRuneAmended (r : Nat) : Option Nat :=
  if r = 32 then some 45
  else if r = 45 then some 45
  else if r = 95 then some 95
  else if isLetterRune r then some r
  else if isDigitRune r then some r
  else none

/-- Slug generation as the amended claim words it. -/
def generateSlugAmended (l : List Nat) : List Nat :=
  (toLowerRunes (trimSpaceRunes l)).filterMap slugRuneAmended

/-! ## Symmetric encryption (src/accounts/encryption.go)

The AES block cipher itself is external (crypto/aes); it enters the model as
an abstract block-encryption oracle `E : key -> 16-byte block -> 16-byte
block`.  CFB mode only ever uses the encryption direction of the block
cipher, exactly as crypto/cipher.NewCFBEncrypter / NewCFBDecrypter do.
`crypto/rand` is external as well, so the fresh initialization vector is a
parameter of `encrypt`.  A Go panic (encryption key not configured) is a
distinct result from an error return. -/

def blockSize : Nat := 16

/-- aes.NewCipher succeeds exactly for 16, 24 or 32 byte keys. -/
def validKeySize (key : Bytes) : Bool :=
  key.length = 16 || key.length = 24 || key.length = 32

/-- Go []byte(s) for the ASCII strings used in this development. -/
def strBytes (s : String) : Bytes := s.data.map Char.toNat

/-- One pass of cipher.NewCFBEncrypter(...).XORKeyStream over the whole
payload: each block of ciphertext is the plaintext block XORed with the
encryption of the previous ciphertext block (initially the IV); a final
partial block uses only a prefix of its keystream block.  The fuel argument
bounds the recursion and is instantiated with the payload length. -/
def cfbEncryptAux (E : Bytes → Bytes) : Nat → Bytes → Bytes → Bytes
  | 0, _, _ => []
  | fuel + 1, reg, p =>
    if p = [] then []
    else
      let c := List.zipWith Nat.xor (p.take blockSize) (E reg)
      c ++ cfbEncryptAux E fuel c (p.drop blockSize)

def cfbEncrypt (E : Bytes → Bytes) (iv : Bytes) (p : Bytes) : Bytes :=
  cfbEncryptAux E p.length iv p

/-- One pass of cipher.NewCFBDecrypter(...).XORKeyStream: each plaintext
block is the ciphertext block XORed with the encryption of the previous
ciphertext block (initially the IV). -/
def cfbDecryptAux (E : Bytes → Bytes) : Nat → Bytes → Bytes → Bytes
  | 0, _, _ => []
  | fuel + 1, reg, c =>
    if c = [] then []
    else
      let chunk := c.take blockSize
      List.zipWith Nat.xor chunk (E reg) ++ cfbDecryptAux E fuel chunk (c.drop blockSize)

def cfbDecrypt (E : Bytes → Bytes) (iv : Bytes) (c : Bytes) : Bytes :=
  cfbDecryptAux E c.length iv c

/-- Result of a fallible crypto call: a Go panic is kept apart from an error
return value. -/
inductive CryptoResult (α : Type) where
  | panicked (msg : String)
  | err (msg : String)
  | ok (val : α)
  deriving DecidableEq, Repr

/-- encrypt (encryption.go lines 31-49).  Panics when no encryption key has
been configured; the ciphertext is the random IV followed by the CFB stream.
`key?` is the package-level `encryptionKey` and `iv` the 16 bytes drawn from
crypto/rand. -/
def encrypt (E : Bytes → Bytes → Bytes) (key? : Option Bytes) (iv : Bytes) (plaintext : Bytes) :
    CryptoResult Bytes :=
  match key? with
  | none => .panicked "Cannot store user information until encryption has been set"
  | some key =>
    if key = [] then .panicked "Cannot store user information until encryption has been set"
    else if validKeySize key then .ok (iv ++ cfbEncrypt (E key) iv plaintext)
    else .err "crypto/aes: invalid key size"

/-- decrypt (encryption.go lines 52-75).  Panics when no key is configured,
fails when the ciphertext is shorter than one block, otherwise splits off the
IV and runs the CFB stream in decrypt direction. -/
def decrypt (E : Bytes → Bytes → Bytes) (key? : Option Bytes) (ciphertext : Bytes) :
    CryptoResult Bytes :=
  match key? with
  | none => .panicked "Cannot decrypt user information until encryption has been set"
  | some key =>
    if key = [] then .panicked "Cannot decrypt user information until encryption has been set"
    else if ¬ validKeySize key then .err "crypto/aes: invalid key size"
    else if ciphertext.length < blockSize then .err "ciphertext too short"
    else .ok (cfbDecrypt (E key) (ciphertext.take blockSize) (ciphertext.drop blockSize))

/-! ## Data model (src/unnamed/part_002, the current models file) -/

/-- The error values declared at package level.  The last three stand for the
externally defined errors that flow through the same code paths: iterator
exhaustion (datastore.Done), a schema mismatch (*datastore.ErrFieldMismatch)
and a memcache miss. -/
inductive Err where
  | unauthenticated
  | noSuchSession
  | noSuchAccount
  | invalidApiKey
  | sessionExpired
  | invalidPassword
  | orphanedUser
  | dsDone
  | fieldMismatch
  | cacheMiss
  deriving DecidableEq, Repr

/-- The message carried by each error value (models.go / the errors package). -/
def Err.message : Err → String
  | .unauthenticated => "No account has been authenticated for this request"
  | .noSuchSession => "No account matches that session"
  | .noSuchAccount => "No account matches that slug"
  | .invalidApiKey => "API Key does not match account"
  | .sessionExpired => "Session has expired, please reauthenticate"
  | .invalidPassword => "That password is not valid for this user"
  | .orphanedUser => "Orphaned user object has no account"
  | .dsDone => "datastore: query has no more results"
  | .fieldMismatch => "datastore: cannot load field"
  | .cacheMiss => "memcache: cache miss"

/-- The package-level Headers map (part_002 lines 41-47).  A Go map lookup on
a key that is absent returns the zero value, so every other argument yields
the empty string. -/
def Headers : String → String
  | "account" => "X-account"
  | "key" => "X-key"
  | "session" => "X-session"
  | "username" => "X-username"
  | "password" => "X-password"
  | _ => ""

/-- SessionTTL: 3 hours, in nanoseconds (time.Duration counts nanoseconds). -/
def SessionTTL : Int := 3 * 3600 * 1000000000

/-- A datastore key: kind plus string or numeric identifier.  An incomplete
key has an empty string identifier and numeric identifier 0. -/
structure DSKey where
  kind : String
  stringID : String
  intID : Int
  deriving DecidableEq, Repr

/-- The Account struct.  `key` is the locally cached datastore key; it
carries the tag `datastore:"-"` and is therefore never read from or written
to the store.  Times are nanosecond counts. -/
structure Account where
  key : Option DSKey
  id : String
  created : Int
  name : String
  slug : String
  apiKey : String
  active : Bool
  deriving DecidableEq, Repr

/-- The Session struct.  `account` and `user` are datastore keys (`user` is
nil for a session created from slug and API key). -/
structure Session where
  key : String
  account : Option DSKey
  user : Option DSKey
  initialized : Int
  lastUsed : Int
  ttl : Int
  deriving DecidableEq, Repr

/-- The User struct.  `key` and `password` carry `datastore:"-"` and are
never stored; `encryptedPassword` holds the encrypted password blob;
`accountCache` models the unexported `account` pointer that memoises the
owning account. -/
structure User where
  key : Option DSKey
  id : Int
  created : Int
  lastLogin : Int
  username : String
  email : String
  password : String
  encryptedPassword : Bytes
  firstName : String
  lastName : String
  accountKey : Option DSKey
  accountCache : Option Account
  deriving DecidableEq, Repr

/-- A User value all of whose fields are Go zero values. -/
def User.zero : User :=
  { key := none, id := 0, created := 0, lastLogin := 0, username := "", email := ""
    password := "", encryptedPassword := [], firstName := "", lastName := ""
    accountKey := none, accountCache := none }

/-- An incoming request: header lookup (http.Header.Get, empty string when
absent) and cookie lookup (req.Cookie, an error when absent). -/
structure Request where
  headers : String → String
  cookies : String → Option String

/-- An outgoing cookie, with the fields sendSession sets. -/
structure Cookie where
  name : String
  value : String
  domain : String
  path : String
  deriving DecidableEq, Repr

/-- The response writer: a MIME header map, the cookies added through
http.SetCookie, the status code once written, and the body. -/
structure Response where
  headers : String → List String
  cookies : List Cookie
  status : Option Nat
  body : String

def Response.empty : Response := { headers := fun _ => [], cookies := [], status := none, body := "" }

/-- rw.Header().Set: replace all values of a header. -/
def headerSet (rw : Response) (k v : String) : Response :=
  { rw with headers := fun x => if x = k then [v] else rw.headers x }

/-- rw.Header().Add: append one value to a header. -/
def headerAdd (rw : Response) (k v : String) : Response :=
  { rw with headers := fun x => if x = k then rw.headers x ++ [v] else rw.headers x }

/-- http.SetCookie: adds one Set-Cookie entry. -/
def addCookie (rw : Response) (c : Cookie) : Response :=
  { rw with cookies := rw.cookies ++ [c] }

def writeHeader (rw : Response) (code : Nat) : Response :=
  { rw with status := some code }

def writeBody (rw : Response) (s : String) : Response :=
  { rw with body := rw.body ++ s }

/-- The host part of a parsed URL (net/url is external). -/
structure Url where
  host : String
  deriving DecidableEq, Repr

/-- The ambient runtime of one request: the clock, the request identifier the
hosting runtime assigns, the external crypto and URL primitives, and the
package-level configuration globals (encryptionKey, mockAccount,
aeutils.UseNDS). `randIV` is the next 16 bytes crypto/rand would produce and
`allocId` the next identifier datastore.AllocateIDs would hand out. -/
structure Env where
  now : Int
  reqId : String
  md5hex : String → String
  urlParse : String → Option Url
  aesEnc : Bytes → Bytes → Bytes
  encryptionKey : Option Bytes
  mockAccount : Option Account
  useNDS : Bool
  randIV : Bytes
  allocId : Int

/-- The datastore contents: entities of kind Account and of kind User, in
iteration order. -/
structure Datastore where
  accounts : List (DSKey × Account)
  users : List (DSKey × User)

/-- The package-level mutable maps of the accounts package, the datastore and
the memcache.  The maps keyed by `*Session` pointers are modelled as maps
keyed by the session value.  `authenticatedUsers` and `sessionToUser` store a
`*User` that may itself be nil, hence the nested Option. -/
structure St where
  ds : Datastore
  memcache : String → Option Session
  authenticatedAccounts : String → Option Account
  authenticatedSessions : String → Option Session
  authenticatedUsers : String → Option (Option User)
  sessions : String → Option Session
  sessionToAccount : Session → Option Account
  sessionToUser : Session → Option (Option User)

/-- Pointwise map update: Go map assignment and deletion. -/
def upd {α β : Type} [DecidableEq α] (m : α → Option β) (k : α) (v : Option β) : α → Option β :=
  fun x => if x = k then v else m x

/-! ## Account and session operations (src/accounts/accounts.go, first file) -/

/-- Account.GetKey (models): return the cached key, or build
datastore.NewKey(ctx, "Account", slug, 0, nil) and cache it on the account. -/
def Account.getKey (acct : Account) : DSKey × Account :=
  match acct.key with
  | some k => (k, acct)
  | none =>
    let k : DSKey := { kind := "Account", stringID := acct.slug, intID := 0 }
    (k, { acct with key := some k })

/-- Account.Load: populate the cached key. -/
def Account.load (acct : Account) : Account := (Account.getKey acct).2

/-- User.GetKey: the cached key, an incomplete key when ID is 0 (without
caching it), or a numeric key built from ID (cached). -/
def User.getKey (u : User) : DSKey × User :=
  match u.key with
  | some k => (k, u)
  | none =>
    if u.id = 0 then ({ kind := "User", stringID := "", intID := 0 }, u)
    else
      let k : DSKey := { kind := "User", stringID := "", intID := u.id }
      (k, { u with key := some k })

/-- Reading an Account entity out of the datastore: the stored properties are
copied into a fresh struct, so the untagged fields arrive as stored while the
`datastore:"-"` field Key stays nil. -/
def loadAccountProps (a : Account) : Account := { a with key := none }

/-- datastore.Get (or nds.Get) of an Account by key. -/
def Datastore.getAccount (ds : Datastore) (k : DSKey) : Option Account :=
  (ds.accounts.find? (fun e => e.1 = k)).map (fun e => loadAccountProps e.2)

/-- datastore.Put of a User entity: overwrite the entity under the key, or
append a fresh one. -/
def Datastore.putUser (ds : Datastore) (k : DSKey) (v : User) : Datastore :=
  if ds.users.any (fun e => e.1 = k) then
    { ds with users := ds.users.map (fun e => if e.1 = k then (k, v) else e) }
  else
    { ds with users := ds.users ++ [(k, v)] }

/-- getSession (accounts.go lines 199-209): the process-local map first, then
memcache under the namespaced key; a memcache miss is the only error source. -/
def getSession (st : St) (key : String) : Option Session :=
  match st.sessions key with
  | some session => some session
  | none => st.memcache ("session-" ++ key)

/-- storeSession (accounts.go lines 211-224): record the session in the local
map, both reverse-lookup maps and memcache (a memcache failure is only
logged). -/
def storeSession (st : St) (session : Session) (acct : Account) (user : Option User) : St :=
  { st with
    sessions := upd st.sessions session.key (some session)
    sessionToAccount := upd st.sessionToAccount session (some acct)
    sessionToUser := upd st.sessionToUser session (some user)
    memcache := upd st.memcache ("session-" ++ session.key) (some session) }

/-- storeAuthenticatedRequest (accounts.go lines 281-286): write all three
request-scoped maps under the request identifier. -/
def storeAuthenticatedRequest (env : Env) (st : St) (acct : Account) (session : Session)
    (user : Option User) : St :=
  { st with
    authenticatedAccounts := upd st.authenticatedAccounts env.reqId (some acct)
    authenticatedSessions := upd st.authenticatedSessions env.reqId (some session)
    authenticatedUsers := upd st.authenticatedUsers env.reqId (some user) }

/-- ClearAuthenticatedRequest (accounts.go lines 290-296): delete all three
request-scoped mappings for the request identifier. -/
def ClearAuthenticatedRequest (env : Env) (st : St) : St :=
  { st with
    authenticatedAccounts := upd st.authenticatedAccounts env.reqId none
    authenticatedSessions := upd st.authenticatedSessions env.reqId none
    authenticatedUsers := upd st.authenticatedUsers env.reqId none }

/-- GetAccount (accounts.go lines 145-154): the mock account short-circuits,
otherwise the request-scoped account map decides. -/
def GetAccount (env : Env) (st : St) : Except Err Account :=
  match env.mockAccount with
  | some m => .ok m
  | none =>
    match st.authenticatedAccounts env.reqId with
    | some acct => .ok acct
    | none => .error .unauthenticated

/-- GetUser (accounts.go lines 156-162). -/
def GetUser (env : Env) (st : St) : Except Err (Option User) :=
  match st.authenticatedUsers env.reqId with
  | some user => .ok user
  | none => .error .unauthenticated

/-- GetSession (accounts.go lines 175-182). -/
def GetSession (env : Env) (st : St) : Except Err Session :=
  match st.authenticatedSessions env.reqId with
  | some session => .ok session
  | none => .error .unauthenticated

/-- The result of createSession.  The source returns `(*Session, error)` and
additionally mutates the account (GetKey caches the key) and the user in
place; the mutated values are returned here explicitly. -/
structure CreateSessionResult where
  session : Session
  err : Option Err
  acct : Account
  user : Option User
  st : St

/-- createSession (accounts.go lines 256-275): token = hex md5 of
"slug-unixNano", a fresh session with initialized = lastUsed = now and the
configured TTL, stored via storeSession and recorded for the current request
via storeAuthenticatedRequest.  The only return statement of the source
yields a nil error. -/
def createSession (env : Env) (st : St) (acct : Account) (user : Option User) :
    CreateSessionResult :=
  let now := env.now
  let token := env.md5hex (acct.slug ++ "-" ++ toString now)
  let (acctKey, acct) := Account.getKey acct
  let keyedUser : Option DSKey × Option User :=
    match user with
    | none => (none, none)
    | some u =>
      let (k, u) := User.getKey u
      (some k, some u)
  let session : Session :=
    { key := token, account := some acctKey, user := keyedUser.1
      initialized := now, lastUsed := now, ttl := SessionTTL }
  let st := storeSession st session acct keyedUser.2
  let st := storeAuthenticatedRequest env st acct session keyedUser.2
  { session := session, err := none, acct := acct, user := keyedUser.2, st := st }

/-- getAccountFromSession (accounts.go lines 321-337): the reverse-lookup map
first; otherwise datastore.Get (or nds.Get) by the key carried in the
session, every failure collapsing to NoSuchSession, followed by Load. -/
def getAccountFromSession (env : Env) (st : St) (session : Session) : Except Err Account :=
  match st.sessionToAccount session with
  | some acct => .ok acct
  | none =>
    match session.account with
    | none => .error .noSuchSession
    | some acctKey =>
      match (if env.useNDS then st.ds.getAccount acctKey else st.ds.getAccount acctKey) with
      | none => .error .noSuchSession
      | some acct => .ok (Account.load acct)

/-- getAccountFromSlug (accounts.go lines 339-355): run a query for the first
Account whose Slug equals the argument; no result means NoSuchAccount, an API
key mismatch means InvalidApiKey, and the survivor is Load-ed. -/
def getAccountFromSlug (ds : Datastore) (slug : String) (apiKey : String) : Except Err Account :=
  match ds.accounts.find? (fun e => e.2.slug = slug) with
  | none => .error .noSuchAccount
  | some e =>
    let acct := loadAccountProps e.2
    if acct.apiKey ≠ apiKey then .error .invalidApiKey
    else .ok (Account.load acct)

/-- authenticateAccount (accounts.go lines 74-86): resolve slug and API key,
then create a session; a session-creation failure would only be logged, never
propagated. -/
def authenticateAccount (env : Env) (st : St) (accountSlug accountKey : String) :
    Except Err Account × St :=
  match getAccountFromSlug st.ds accountSlug accountKey with
  | .error e => (.error e, st)
  | .ok acct =>
    let r := createSession env st acct none
    (.ok r.acct, r.st)

/-- authenticateSession (accounts.go lines 110-126): resolve the session and
its account (any failure becomes Unauthenticated), reject with SessionExpired
when now is strictly after lastUsed + ttl, otherwise refresh lastUsed and
record the identity for this request. -/
def authenticateSession (env : Env) (st : St) (sessionKey : String) :
    Except Err (Account × Session) × St :=
  match getSession st sessionKey with
  | none => (.error .unauthenticated, st)
  | some session =>
    match getAccountFromSession env st session with
    | .error _ => (.error .unauthenticated, st)
    | .ok acct =>
      if env.now > session.lastUsed + session.ttl then
        (.error .sessionExpired, st)
      else
        let session := { session with lastUsed := env.now }
        (.ok (acct, session), storeAuthenticatedRequest env st acct session none)

/-- sessionKeyFromRequest (accounts.go lines 129-141): the session header
first, then a cookie of the same name, else the empty string. -/
def sessionKeyFromRequest (req : Request) : String :=
  let headerName := Headers "session"
  let sessionKey := req.headers headerName
  if sessionKey = "" then
    match req.cookies headerName with
    | none => ""
    | some v => v
  else sessionKey

/-- strings.Contains(domain, ":") followed by strings.Split(domain, ":")[0]
(the prefix before the first colon), as the dead port-stripping branch of
sendSession would compute it. -/
def stripPort (domain : String) : String :=
  if domain.data.contains ':' then String.mk (domain.data.takeWhile (fun c => c ≠ ':'))
  else domain

/-- sendSession (accounts.go lines 226-250).  The source only assigns the
cookie domain when url.Parse on the Origin header FAILS (the condition reads
err != nil); in that branch the returned *URL is nil and reading reqUrl.Host
panics, modelled as `none`.  When parsing succeeds the domain stays the empty
string.  The session key is set as the session header, that header name is
added to Access-Control-Expose-Headers, and the cookie is written with path
"/". -/
def sendSession (env : Env) (req : Request) (rw : Response) (session : Session) :
    Option Response :=
  let sessionHeader := Headers "session"
  let sessionKey := session.key
  match env.urlParse (req.headers "Origin") with
  | none => none
  | some _ =>
    let domain := ""
    let cookie : Cookie :=
      { name := sessionHeader, value := sessionKey, domain := domain, path := "/" }
    let rw := headerSet rw sessionHeader sessionKey
    let rw := headerAdd rw "Access-Control-Expose-Headers" sessionHeader
    some (addCookie rw cookie)

/-! ## User authentication (src/unnamed/part_002) -/

/-- User.validatePassword: decrypt the stored blob and compare byte-wise with
the supplied plaintext.  A decrypt error yields false; a decrypt panic (no
key configured) propagates, modelled as `none`. -/
def User.validatePassword (env : Env) (u : User) (password : String) : Option Bool :=
  match decrypt env.aesEnc env.encryptionKey u.encryptedPassword with
  | .panicked _ => none
  | .err _ => some false
  | .ok d => some (strBytes password == d)

/-- The User method Account(ctx): nil when no account key is set, otherwise
the memoised account or a datastore/nds get (nil again when that fails).  The
returned user carries the updated memo field. -/
def User.Account (env : Env) (st : St) (u : User) : Option Account × User :=
  match u.accountKey with
  | none => (none, u)
  | some k =>
    match u.accountCache with
    | some acct => (some acct, u)
    | none =>
      match (if env.useNDS then st.ds.getAccount k else st.ds.getAccount k) with
      | none => (none, u)
      | some acct => (some acct, { u with accountCache := some acct })

/-- iter.Next on the query over kind User filtered by Username with limit 1:
the first stored user with that username, or datastore.Done. -/
def userIterNext (ds : Datastore) (username : String) : Except Err User :=
  match ds.users.find? (fun e => e.2.username = username) with
  | some e => .ok e.2
  | none => .error .dsDone

/-- The tail of User.BeforeSave after the password handling: default the
username from email or from the concatenated names, adopt the key of an
already-authenticated account, and stamp Created when zero. -/
def beforeSaveRest (env : Env) (st : St) (u : User) : User :=
  let u :=
    if u.username = "" then
      if u.email ≠ "" then { u with username := u.email }
      else { u with username := u.firstName ++ u.lastName }
    else u
  let u :=
    match GetAccount env st with
    | .ok acct => { u with accountKey := acct.key }
    | .error _ => u
  if u.created = 0 then { u with created := env.now } else u

/-- User.BeforeSave (part_002 lines 90-115): when a plaintext password is
present, clear it and store its encryption; an encryption error is logged and
returns early (skipping the defaults below), an encryption panic propagates. -/
def User.BeforeSave (env : Env) (st : St) (u : User) : Option User :=
  if u.password ≠ "" then
    let pw := u.password
    let u := { u with password := "" }
    match encrypt env.aesEnc env.encryptionKey env.randIV (strBytes pw) with
    | .panicked _ => none
    | .err _ => some u
    | .ok enc => some (beforeSaveRest env st { u with encryptedPassword := enc })
  else some (beforeSaveRest env st u)

/-- aeutils.Save applied to a *User (the source dispatches through
reflection): run BeforeSave, take the key from the Key field, else from a
nonzero ID field, else allocate a fresh numeric identifier; put the entity
and write the final key back into the Key and ID fields. -/
def saveUser (env : Env) (st : St) (u : User) : Option (User × St) :=
  match User.BeforeSave env st u with
  | none => none
  | some u =>
    let key : DSKey :=
      match u.key with
      | some k => k
      | none =>
        if u.id ≠ 0 then { kind := "User", stringID := "", intID := u.id }
        else { kind := "User", stringID := "", intID := env.allocId }
    let u := { u with key := some key, id := key.intID }
    some (u, { st with ds := st.ds.putUser key u })

/-- The tail of User.Authenticate after the iterator: validate the password
(propagating a decrypt panic), then stamp LastLogin and persist through
aeutils.Save, whose return value the source discards. -/
def authenticateTail (env : Env) (st : St) (u : User) : Option (Except Err User × St) :=
  match User.validatePassword env u u.password with
  | none => none
  | some false => some (.error .invalidPassword, st)
  | some true =>
    let u := { u with lastLogin := env.now }
    match saveUser env st u with
    | none => none
    | some (u, st) => some (.ok u, st)

/-- User.Authenticate (part_002 lines 172-201): query kind User by Username
with limit 1.  The source also calls query.Filter("Account =", ...) when an
account is already authenticated, but discards the returned query, so the
filter never takes effect.  An iterator error that is not a field mismatch is
returned as-is; a field mismatch falls through to password validation with
the partially populated struct.  On a hit, iter.Next fills the stored
properties while the datastore:"-" fields (Key, Password) and the unexported
memo keep their current values. -/
def User.Authenticate (env : Env) (st : St) (u : User) : Option (Except Err User × St) :=
  let _acct := GetAccount env st
  match userIterNext st.ds u.username with
  | .error e =>
    if e ≠ .fieldMismatch then some (.error e, st)
    else authenticateTail env st u
  | .ok stored =>
    let u := { stored with key := u.key, password := u.password, accountCache := u.accountCache }
    authenticateTail env st u

/-- AuthenticateUser (part_002 lines 159-169): build a user value carrying
the credentials and authenticate it. -/
def AuthenticateUser (env : Env) (st : St) (username password : String) :
    Option (Except Err User × St) :=
  User.Authenticate env st { User.zero with username := username, password := password }

/-- authenticateAccountByUser (accounts.go lines 90-107): authenticate the
user, resolve its owning account (nil means the orphaned-user error), then
create a session bound to both; a session-creation failure would only be
logged. -/
def authenticateAccountByUser (env : Env) (st : St) (username password : String) :
    Option (Except Err Account × St) :=
  match AuthenticateUser env st username password with
  | none => none
  | some (.error e, st) => some (.error e, st)
  | some (.ok user, st) =>
    match User.Account env st user with
    | (none, _) => some (.error .orphanedUser, st)
    | (some acct, user) =>
      let r := createSession env st acct (some user)
      some (.ok r.acct, r.st)

/-! ## AuthenticateRequest (accounts.go lines 36-68) -/

/-- AuthenticateRequest: the mock account short-circuits; an account slug
header selects slug+key authentication; otherwise the source reads the
header named by Headers["slug"] — a key that is NOT in the Headers map, so
the lookup yields "" and this branch inspects the header with the empty
name; otherwise the session key from header or cookie.  On a successful
slug or username authentication the stored session is sent back through
sendSession (GetSession cannot fail there, but if it did, sendSession would
dereference a nil session — modelled as `none`, like a sendSession panic). -/
def AuthenticateRequest (env : Env) (st : St) (req : Request) (rw : Response) :
    Option (Except Err Account × Response × St) :=
  match env.mockAccount with
  | some m => some (.ok m, rw, st)
  | none =>
    let slug := req.headers (Headers "account")
    if slug ≠ "" then
      let apiKey := req.headers (Headers "key")
      match authenticateAccount env st slug apiKey with
      | (.error e, st) => some (.error e, rw, st)
      | (.ok acct, st) =>
        match GetSession env st with
        | .error _ => none
        | .ok session =>
          match sendSession env req rw session with
          | none => none
          | some rw => some (.ok acct, rw, st)
    else
      let username := req.headers (Headers "slug")
      if username ≠ "" then
        let password := req.headers (Headers "password")
        match authenticateAccountByUser env st username password with
        | none => none
        | some (.error e, st) => some (.error e, rw, st)
        | some (.ok acct, st) =>
          match GetSession env st with
          | .error _ => none
          | .ok session =>
            match sendSession env req rw session with
            | none => none
            | some rw => some (.ok acct, rw, st)
      else
        let sessionKey := sessionKeyFromRequest req
        if sessionKey = "" then some (.error .unauthenticated, rw, st)
        else
          match authenticateSession env st sessionKey with
          | (.error e, st) => some (.error e, rw, st)
          | (.ok (acct, _), st) => some (.ok acct, rw, st)

/-! ## Middleware (src/accounts/handlers.go) -/

/-- The observable outcome of running a wrapped operation: the response and
state it left behind, and whether it panicked. -/
structure HandlerRun where
  rw : Response
  st : St
  panicked : Bool

/-- The dynamic argument of AuthenticatedFunc: the type switch accepts an
AuthFunc or an http.HandlerFunc and panics on anything else. -/
inductive WrappedFn where
  | authFn (f : Response → Request → Account → St → HandlerRun)
  | handlerFn (f : Response → Request → St → HandlerRun)
  | unsupported

/-- The observable outcome of the middleware itself. -/
structure MWResult where
  rw : Response
  st : St
  panicked : Bool

/-- AuthenticatedFunc (handlers.go lines 11-33): authenticate; on
Unauthenticated answer 401 with no body, on any other error 500 with the
error text; on success dispatch on the dynamic type of the wrapped function,
run it, and clear the request-scoped identity afterwards.  The clear call is
a plain statement after the call, not a deferred one, so it does not run
when the wrapped function panics, nor on the unsupported-type panic. -/
def AuthenticatedFunc (env : Env) (fn : WrappedFn) (req : Request) (rw : Response) (st : St) :
    MWResult :=
  match AuthenticateRequest env st req rw with
  | none => { rw := rw, st := st, panicked := true }
  | some (.error e, rw, st) =>
    if e = .unauthenticated then { rw := writeHeader rw 401, st := st, panicked := false }
    else { rw := writeBody (writeHeader rw 500) e.message, st := st, panicked := false }
  | some (.ok acct, rw, st) =>
    match fn with
    | .authFn f =>
      let r := f rw req acct st
      if r.panicked then { rw := r.rw, st := r.st, panicked := true }
      else { rw := r.rw, st := ClearAuthenticatedRequest env r.st, panicked := false }
    | .handlerFn f =>
      let r := f rw req st
      if r.panicked then { rw := r.rw, st := r.st, panicked := true }
      else { rw := r.rw, st := ClearAuthenticatedRequest env r.st, panicked := false }
    | .unsupported => { rw := rw, st := st, panicked := true }

/-- AuthenticatedHandler (handlers.go lines 37-52): the same wrapper for an
http.Handler, discarding the account. -/
def AuthenticatedHandler (env : Env) (handler : Response → Request → St → HandlerRun)
    (req : Request) (rw : Response) (st : St) : MWResult :=
  match AuthenticateRequest env st req rw with
  | none => { rw := rw, st := st, panicked := true }
  | some (.error e, rw, st) =>
    if e = .unauthenticated then { rw := writeHeader rw 401, st := st, panicked := false }
    else { rw := writeBody (writeHeader rw 500) e.message, st := st, panicked := false }
  | some (.ok _, rw, st) =>
    let r := handler rw req st
    if r.panicked then { rw := r.rw, st := r.st, panicked := true }
    else { rw := r.rw, st := ClearAuthenticatedRequest env r.st, panicked := false }

/-! ## Concrete fixtures

A small world used to evaluate the model on closed inputs: one stored
account ("acme" / API key "k1"), one stored user ("alice" whose password is
"pw"), a deterministic hash, a constant block-cipher oracle and an all-zero
IV source, so that every run is a closed computation. -/

def acmeKey : DSKey := { kind := "Account", stringID := "acme", intID := 0 }

def acmeAccount : Account :=
  { key := none, id := "a1", created := 5, name := "Acme", slug := "acme"
    apiKey := "k1", active := true }

/-- The account as authentication returns it: Load / GetKey has cached the key. -/
def acmeLoaded : Account := { acmeAccount with key := some acmeKey }

def aliceKey : DSKey := { kind := "User", stringID := "", intID := 7 }

/-- "pw" as bytes is [112, 119]; with the constant-zero cipher oracle below,
its encryption under the zero IV is sixteen zero bytes followed by those two. -/
def aliceStored : User :=
  { User.zero with
    id := 7, created := 5, username := "alice", email := "alice@example.com"
    encryptedPassword := List.replicate 16 0 ++ [112, 119]
    accountKey := some acmeKey }

def baseEnv : Env :=
  { now := 100, reqId := "req-1"
    md5hex := fun _ => "tok"
    urlParse := fun _ => some { host := "" }
    aesEnc := fun _ _ => List.replicate 16 0
    encryptionKey := some (List.replicate 16 97)
    mockAccount := none, useNDS := false
    randIV := List.replicate 16 0, allocId := 11 }

def baseSt : St :=
  { ds := { accounts := [(acmeKey, acmeAccount)], users := [(aliceKey, aliceStored)] }
    memcache := fun _ => none
    authenticatedAccounts := fun _ => none
    authenticatedSessions := fun _ => none
    authenticatedUsers := fun _ => none
    sessions := fun _ => none
    sessionToAccount := fun _ => none
    sessionToUser := fun _ => none }

/-- A request carrying only username and password headers. -/
def reqUserCreds : Request :=
  { headers := fun h => if h = "X-username" then "alice" else if h = "X-password" then "pw" else ""
    cookies := fun _ => none }

/-- A request carrying account slug and API key headers. -/
def reqSlugCreds : Request :=
  { headers := fun h => if h = "X-account" then "acme" else if h = "X-key" then "k1" else ""
    cookies := fun _ => none }

/-- A request whose only header is an Origin with an explicit port. -/
def reqWithOrigin : Request :=
  { headers := fun h => if h = "Origin" then "http://example.com:8080" else ""
    cookies := fun _ => none }

/-- An environment whose URL parser succeeds on that Origin value, returning
its host, and fails on anything else. -/
def envOrigin : Env :=
  { baseEnv with
    urlParse := fun s =>
      if s = "http://example.com:8080" then some { host := "example.com:8080" } else none }

def tokSession : Session :=
  { key := "tok123", account := some acmeKey, user := none
    initialized := 0, lastUsed := 0, ttl := SessionTTL }

/-- A wrapped operation of the AuthFunc shape that panics. -/
def panickingFn : WrappedFn :=
  .authFn (fun rw _ _ st => { rw := rw, st := st, panicked := true })

/-- A wrapped operation of the AuthFunc shape that returns normally. -/
def calmFn : Response → Request → Account → St → HandlerRun :=
  fun rw _ _ st => { rw := rw, st := st, panicked := false }

/-- A wrapped http.Handler that returns normally. -/
def calmHandler : Response → Request → St → HandlerRun :=
  fun rw _ st => { rw := rw, st := st, panicked := false }

/-- A constant block-cipher oracle used by the crypto witnesses. -/
def constCipher : Bytes → Bytes → Bytes := fun _ _ => List.replicate 16 5

/-- A session last used at time 10 with a time-to-live of 5 nanoseconds. -/
def boundarySession : Session :=
  { key := "t", account := some acmeKey, user := none
    initialized := 10, lastUsed := 10, ttl := 5 }

/-- A state holding that session in the local map together with its account. -/
def stBoundary : St :=
  { baseSt with
    sessions := fun k => if k = "t" then some boundarySession else none
    sessionToAccount := fun s => if s = boundarySession then some acmeLoaded else none }

/-- The base environment with the clock moved to a given instant. -/
def envAt (t : Int) : Env := { baseEnv with now := t }

/-- A state in which request "req-1" has an authenticated identity. -/
def stWithIdentity : St := storeAuthenticatedRequest baseEnv baseSt acmeLoaded tokSession none

def envReq2 : Env := { baseEnv with reqId := "req-2" }

/-- A state in which both "req-1" and "req-2" have authenticated identities. -/
def stTwoIdentities : St := storeAuthenticatedRequest envReq2 stWithIdentity acmeLoaded tokSession none

/-- The user value AuthenticateUser returns for alice in the base world:
key cached, last login stamped. -/
def aliceSaved : User := { aliceStored with key := some aliceKey, lastLogin := 100 }

/-- The state after that authentication: the stored alice entity has been
re-persisted through aeutils.Save. -/
def stAfterUserAuth : St :=
  { baseSt with ds := { baseSt.ds with users := [(aliceKey, aliceSaved)] } }

/-! ## Helper lemmas -/

theorem cfbEncryptAux_nil (E : Bytes → Bytes) (fuel : Nat) (reg : Bytes) :
    cfbEncryptAux E fuel reg [] = [] := by
  cases fuel <;> simp [cfbEncryptAux]

theorem cfbDecryptAux_nil (E : Bytes → Bytes) (fuel : Nat) (reg : Bytes) :
    cfbDecryptAux E fuel reg [] = [] := by
  cases fuel <;> simp [cfbDecryptAux]

theorem zipWith_xor_cancel :
    ∀ (a b : Bytes), a.length ≤ b.length →
      List.zipWith Nat.xor (List.zipWith Nat.xor a b) b = a := by
  intro a
  induction a with
  | nil => intro b _; simp
  | cons x xs ih =>
    intro b h
    cases b with
    | nil => simp at h
    | cons y ys =>
      simp only [List.zipWith_cons_cons]
      have h1 : Nat.xor (Nat.xor x y) y = x := Nat.xor_cancel_right y x
      rw [h1, ih ys (by simpa using h)]

theorem cfbEncryptAux_length (E : Bytes → Bytes) (hE : ∀ b, (E b).length = blockSize) :
    ∀ (fuel : Nat) (reg p : Bytes), p.length ≤ fuel →
      (cfbEncryptAux E fuel reg p).length = p.length := by
  intro fuel
  induction fuel with
  | zero =>
    intro reg p h
    have hp : p = [] := List.length_eq_zero.mp (Nat.le_zero.mp h)
    subst hp
    simp [cfbEncryptAux]
  | succ fuel ih =>
    intro reg p h
    by_cases hp : p = []
    · subst hp; simp [cfbEncryptAux]
    · have hpos : 0 < p.length := List.length_pos.mpr hp
      simp only [cfbEncryptAux, if_neg hp, List.length_append, List.length_zipWith,
        List.length_take, hE]
      rw [ih _ _ (by simp only [List.length_drop, blockSize] at h ⊢; omega)]
      simp only [List.length_drop, blockSize]
      omega

theorem cfb_roundtrip_aux (E : Bytes → Bytes) (hE : ∀ b, (E b).length = blockSize) :
    ∀ (fuel : Nat) (reg p : Bytes), p.length ≤ fuel →
      cfbDecryptAux E fuel reg (cfbEncryptAux E fuel reg p) = p := by
  intro fuel
  induction fuel with
  | zero =>
    intro reg p h
    have hp : p = [] := List.length_eq_zero.mp (Nat.le_zero.mp h)
    subst hp
    simp [cfbEncryptAux, cfbDecryptAux]
  | succ fuel ih =>
    intro reg p h
    by_cases hp : p = []
    · subst hp; simp [cfbEncryptAux, cfbDecryptAux]
    · have hpos : 0 < p.length := List.length_pos.mpr hp
      have htlen : (p.take blockSize).length ≤ (E reg).length := by
        simp [List.length_take, hE]
      have hclen : (List.zipWith Nat.xor (p.take blockSize) (E reg)).length
          = min p.length blockSize := by
        simp only [List.length_zipWith, List.length_take, hE]
        omega
      have hcne : List.zipWith Nat.xor (p.take blockSize) (E reg) ≠ [] := by
        intro h0
        rw [h0] at hclen
        simp only [List.length_nil] at hclen
        simp only [blockSize] at hclen
        omega
      simp only [cfbEncryptAux, if_neg hp]
      rcases le_or_lt p.length blockSize with hle | hgt
      · have hdrop : p.drop blockSize = [] := List.drop_eq_nil_of_le hle
        rw [hdrop, cfbEncryptAux_nil, List.append_nil]
        simp only [cfbDecryptAux, if_neg hcne]
        have hcle : (List.zipWith Nat.xor (p.take blockSize) (E reg)).length ≤ blockSize := by
          rw [hclen]; omega
        rw [List.take_of_length_le hcle, List.drop_eq_nil_of_le hcle, cfbDecryptAux_nil,
          List.append_nil, zipWith_xor_cancel _ _ htlen, List.take_of_length_le hle]
      · have hc16 : (List.zipWith Nat.xor (p.take blockSize) (E reg)).length = blockSize := by
          rw [hclen]; omega
        have hne2 : List.zipWith Nat.xor (p.take blockSize) (E reg) ++
            cfbEncryptAux E fuel (List.zipWith Nat.xor (p.take blockSize) (E reg))
              (p.drop blockSize) ≠ [] := by
          intro h0
          exact hcne (List.append_eq_nil.mp h0).1
        simp only [cfbDecryptAux, if_neg hne2]
        rw [List.take_left' hc16, List.drop_left' hc16, zipWith_xor_cancel _ _ htlen,
          ih _ _ (by simp only [List.length_drop, blockSize] at h ⊢; omega),
          List.take_append_drop]

/-- CFB round trip: decrypting an encryption stream recovers the payload,
for any block oracle producing full keystream blocks. -/
theorem cfb_roundtrip (E : Bytes → Bytes) (hE : ∀ b, (E b).length = blockSize)
    (iv p : Bytes) : cfbDecrypt E iv (cfbEncrypt E iv p) = p := by
  unfold cfbDecrypt cfbEncrypt
  rw [cfbEncryptAux_length E hE p.length iv p le_rfl]
  exact cfb_roundtrip_aux E hE p.length iv p le_rfl

theorem slugMapRune_eq_amended (r : Nat) : slugMapRune r = slugRuneAmended r := by
  unfold slugMapRune slugRuneAmended
  split_ifs <;> simp_all

theorem slugMapRune_some (x r : Nat) (h : slugMapRune x = some r) :
    r = 45 ∨ (r = x ∧ (x = 95 ∨ isLetterRune x = true ∨ isDigitRune x = true)) := by
  unfold slugMapRune at h
  split_ifs at h with h1 h2
  · exact Or.inl (Option.some.inj h).symm
  · exact Or.inr ⟨(Option.some.inj h).symm, h2⟩

theorem toLowerRune_not_upper (e : Nat) : isUpperRune (toLowerRune e) = false := by
  unfold toLowerRune
  split_ifs with h
  · simp only [isUpperRune, Bool.and_eq_true, decide_eq_true_eq] at h
    simp only [isUpperRune, Bool.eq_false_iff, ne_eq, Bool.and_eq_true, decide_eq_true_eq]
    omega
  · simp only [isUpperRune, Bool.and_eq_true, decide_eq_true_eq] at h
    simp only [isUpperRune, Bool.eq_false_iff, ne_eq, Bool.and_eq_true, decide_eq_true_eq]
    omega

theorem kept_rune_not_space (d : Nat)
    (hx : d = 95 ∨ isLetterRune d = true ∨ isDigitRune d = true) :
    isSpaceRune d = false := by
  simp only [isLetterRune, isUpperRune, isLowerRune, isDigitRune, Bool.or_eq_true,
    Bool.and_eq_true, decide_eq_true_eq] at hx
  simp only [isSpaceRune, Bool.eq_false_iff, ne_eq, Bool.or_eq_true, decide_eq_true_eq]
  omega

/-- GetKey is stable on an account that Load has already processed. -/
theorem Account.getKey_load (a : Account) : Account.getKey (Account.load a) = ((Account.getKey a).1, Account.load a) := by
  unfold Account.load Account.getKey
  cases h : a.key <;> simp [h]

/-! ## Claim theorems -/

/-- Claim C7 (corrected).  The claim says underscores are normalized to
hyphens; the source keeps them.  Amended statement: GenerateSlug lowercases
and trims its input, normalizes each space and hyphen to a hyphen, keeps
underscores and alphanumerics unchanged, and removes every other character —
so the result contains no uppercase letter and no white space. -/
theorem C7_generateSlug_amended (l : List Nat) :
    GenerateSlug l = generateSlugAmended l ∧
    ∀ r ∈ GenerateSlug l, isUpperRune r = false ∧ isSpaceRune r = false := by
  constructor
  · unfold GenerateSlug generateSlugAmended
    have hfun : slugMapRune = slugRuneAmended := funext slugMapRune_eq_amended
    rw [hfun]
  · intro r hr
    unfold GenerateSlug toLowerRunes at hr
    obtain ⟨d, hd, hmap⟩ := List.mem_filterMap.mp hr
    obtain ⟨e, _, rfl⟩ := List.mem_map.mp hd
    rcases slugMapRune_some _ _ hmap with rfl | ⟨rfl, hx⟩
    · exact ⟨by decide, by decide⟩
    · exact ⟨toLowerRune_not_upper e, kept_rune_not_space _ hx⟩

/-- Claim C7 counterexample: on the name "a_b" (runes 97, 95, 98) the source
keeps the underscore, while the claim as stated demands a hyphen. -/
theorem C7_underscore_counterexample :
    GenerateSlug [97, 95, 98] = [97, 95, 98] ∧
    generateSlugClaimed [97, 95, 98] = [97, 45, 98] ∧
    GenerateSlug [97, 95, 98] ≠ generateSlugClaimed [97, 95, 98] := by decide

/-- Witness for C7: a concrete instance of the amended theorem, at the name
"My _" (runes 77, 121, 32, 95) and the output rune 109. -/
theorem C7_generateSlug_amended_witness :
    GenerateSlug [77, 121, 32, 95] = generateSlugAmended [77, 121, 32, 95] ∧
    (isUpperRune 109 = false ∧ isSpaceRune 109 = false) :=
  ⟨(C7_generateSlug_amended [77, 121, 32, 95]).1,
   (C7_generateSlug_amended [77, 121, 32, 95]).2 109 (by decide)⟩

/-- Claim C8 (confirmed): with a configured valid key, decrypt inverts
encrypt on every byte payload; two encryptions of the same payload under
distinct (random) initialization vectors yield different ciphertexts, and
both decrypt back to the payload.  The fresh random IVs drawn by the two
encrypt calls are the parameters iv and iv2; the AES block oracle is
abstract, constrained only to produce full blocks. -/
theorem C8_encrypt_decrypt_roundtrip (E : Bytes → Bytes → Bytes) (key iv iv2 p : Bytes)
    (hkey : validKeySize key = true) (hiv : iv.length = blockSize)
    (hiv2 : iv2.length = blockSize) (hne : iv ≠ iv2)
    (hE : ∀ b, (E key b).length = blockSize) :
    (∀ c, encrypt E (some key) iv p = .ok c → decrypt E (some key) c = .ok p) ∧
    (∀ c c2, encrypt E (some key) iv p = .ok c → encrypt E (some key) iv2 p = .ok c2 →
      c ≠ c2 ∧ decrypt E (some key) c2 = .ok p) := by
  have hkne : key ≠ [] := by
    intro h0
    rw [h0] at hkey
    simp [validKeySize] at hkey
  have henc : ∀ iv0, iv0.length = blockSize →
      encrypt E (some key) iv0 p = .ok (iv0 ++ cfbEncrypt (E key) iv0 p) := by
    intro iv0 _
    simp only [encrypt]
    rw [if_neg hkne, if_pos hkey]
  have hdec : ∀ iv0, iv0.length = blockSize →
      decrypt E (some key) (iv0 ++ cfbEncrypt (E key) iv0 p) = .ok p := by
    intro iv0 hiv0
    simp only [decrypt]
    rw [if_neg hkne]
    have hnotshort : ¬ (iv0 ++ cfbEncrypt (E key) iv0 p).length < blockSize := by
      simp only [List.length_append, hiv0]
      omega
    rw [if_neg (by simp [hkey]), if_neg hnotshort, List.take_left' hiv0,
      List.drop_left' hiv0, cfb_roundtrip (E key) hE iv0 p]
  constructor
  · intro c hc
    rw [henc iv hiv] at hc
    have := (CryptoResult.ok.inj hc)
    rw [← this]
    exact hdec iv hiv
  · intro c c2 hc hc2
    rw [henc iv hiv] at hc
    rw [henc iv2 hiv2] at hc2
    have e1 := CryptoResult.ok.inj hc
    have e2 := CryptoResult.ok.inj hc2
    constructor
    · intro heq
      apply hne
      have := congrArg (List.take blockSize) heq
      rw [← e1, ← e2, List.take_left' hiv, List.take_left' hiv2] at this
      exact this
    · rw [← e2]
      exact hdec iv2 hiv2

/-- Claim C2 (confirmed): a session with lastUsed = T0 and ttl = D, resolvable
together with its account, authenticates successfully at T0 + D - 1 (returning
the account and the session with a refreshed lastUsed) and fails with
SessionExpired at T0 + D + 1. -/
theorem C2_session_expiry_boundaries (env1 env2 : Env) (st : St) (token : String)
    (session : Session) (acct : Account) (T0 D : Int)
    (hs : st.sessions token = some session)
    (ha : st.sessionToAccount session = some acct)
    (hl : session.lastUsed = T0) (ht : session.ttl = D)
    (h1 : env1.now = T0 + D - 1) (h2 : env2.now = T0 + D + 1) :
    (authenticateSession env1 st token).1 = .ok (acct, { session with lastUsed := env1.now }) ∧
    (authenticateSession env2 st token).1 = .error .sessionExpired := by
  constructor
  · simp only [authenticateSession, getSession, hs, getAccountFromSession, ha]
    rw [if_neg (by rw [hl, ht, h1]; omega)]
  · simp only [authenticateSession, getSession, hs, getAccountFromSession, ha]
    rw [if_pos (by rw [hl, ht, h2]; omega)]

/-- Witness for C2: the boundary session (T0 = 10, D = 5) at times 14 and 16. -/
theorem C2_session_expiry_boundaries_witness :
    (authenticateSession (envAt 14) stBoundary "t").1
      = .ok (acmeLoaded, { boundarySession with lastUsed := 14 }) ∧
    (authenticateSession (envAt 16) stBoundary "t").1 = .error .sessionExpired := by
  have h := C2_session_expiry_boundaries (envAt 14) (envAt 16) stBoundary "t"
    boundarySession acmeLoaded 10 5 (by decide) (by decide) rfl rfl rfl rfl
  exact h

/-- Claim C10 (confirmed): at the exact expiry instant, now = lastUsed + ttl,
the comparison now.After(lastUsed.Add(ttl)) is strict, so authentication
still succeeds: the validity interval is closed at its upper endpoint. -/
theorem C10_expiry_instant_still_valid (env : Env) (st : St) (token : String)
    (session : Session) (acct : Account)
    (hs : st.sessions token = some session)
    (ha : st.sessionToAccount session = some acct)
    (hnow : env.now = session.lastUsed + session.ttl) :
    (authenticateSession env st token).1 = .ok (acct, { session with lastUsed := env.now }) := by
  simp only [authenticateSession, getSession, hs, getAccountFromSession, ha]
  rw [if_neg (by rw [hnow]; omega)]

/-- Witness for C10: the boundary session (lastUsed 10, ttl 5) at time 15. -/
theorem C10_expiry_instant_still_valid_witness :
    (authenticateSession (envAt 15) stBoundary "t").1
      = .ok (acmeLoaded, { boundarySession with lastUsed := 15 }) :=
  C10_expiry_instant_still_valid (envAt 15) stBoundary "t" boundarySession acmeLoaded
    (by decide) (by decide) rfl

/-- Claim C4 (confirmed): when the first stored account with slug s carries
API key k, authenticateAccount(s, k) succeeds with that account (its cached
key populated by Load); any other key fails with InvalidApiKey; any slug
matching no stored account fails with NoSuchAccount. -/
theorem C4_authenticate_by_slug_and_key (env : Env) (st : St) (s k : String)
    (entry : DSKey × Account)
    (hfind : st.ds.accounts.find? (fun e => e.2.slug = s) = some entry)
    (hkey : entry.2.apiKey = k) :
    (authenticateAccount env st s k).1 = .ok (Account.load (loadAccountProps entry.2)) ∧
    (∀ k2, k2 ≠ k → (authenticateAccount env st s k2).1 = .error .invalidApiKey) ∧
    (∀ s2, st.ds.accounts.find? (fun e => e.2.slug = s2) = none →
      ∀ k3, (authenticateAccount env st s2 k3).1 = .error .noSuchAccount) := by
  refine ⟨?_, ?_, ?_⟩
  · simp only [authenticateAccount, getAccountFromSlug, hfind]
    rw [if_neg (by simp only [loadAccountProps, hkey]; exact fun h => h rfl)]
    simp only [createSession, Account.getKey_load]
  · intro k2 hk2
    simp only [authenticateAccount, getAccountFromSlug, hfind]
    rw [if_pos (by simp only [loadAccountProps]; rw [hkey]; exact fun h => hk2 h.symm)]
  · intro s2 hnone k3
    simp only [authenticateAccount, getAccountFromSlug, hnone]

/-- Witness for C4: the stored account acme / k1; wrong key "wrong"; absent
slug "missing". -/
theorem C4_authenticate_by_slug_and_key_witness :
    (authenticateAccount baseEnv baseSt "acme" "k1").1
      = .ok (Account.load (loadAccountProps acmeAccount)) ∧
    (authenticateAccount baseEnv baseSt "acme" "wrong").1 = .error .invalidApiKey ∧
    (authenticateAccount baseEnv baseSt "missing" "k1").1 = .error .noSuchAccount := by
  have h := C4_authenticate_by_slug_and_key baseEnv baseSt "acme" "k1" (acmeKey, acmeAccount)
    (by decide) rfl
  exact ⟨h.1, h.2.1 "wrong" (by decide), h.2.2 "missing" (by decide) "k1"⟩

/-- Claim C5 (confirmed): clearing the request identity cache removes the
account, session and user mappings of the given request identifier and leaves
the three mappings of every other identifier untouched. -/
theorem C5_clear_removes_only_this_request (env : Env) (st : St) (other : String)
    (hother : other ≠ env.reqId) :
    (ClearAuthenticatedRequest env st).authenticatedAccounts env.reqId = none ∧
    (ClearAuthenticatedRequest env st).authenticatedSessions env.reqId = none ∧
    (ClearAuthenticatedRequest env st).authenticatedUsers env.reqId = none ∧
    (ClearAuthenticatedRequest env st).authenticatedAccounts other
      = st.authenticatedAccounts other ∧
    (ClearAuthenticatedRequest env st).authenticatedSessions other
      = st.authenticatedSessions other ∧
    (ClearAuthenticatedRequest env st).authenticatedUsers other
      = st.authenticatedUsers other := by
  simp [ClearAuthenticatedRequest, upd, hother]

/-- Witness for C5: requests "req-1" and "req-2" both hold identities;
clearing "req-1" removes only its own three mappings. -/
theorem C5_clear_removes_only_this_request_witness :
    (ClearAuthenticatedRequest baseEnv stTwoIdentities).authenticatedAccounts "req-1" = none ∧
    (ClearAuthenticatedRequest baseEnv stTwoIdentities).authenticatedSessions "req-1" = none ∧
    (ClearAuthenticatedRequest baseEnv stTwoIdentities).authenticatedUsers "req-1" = none ∧
    (ClearAuthenticatedRequest baseEnv stTwoIdentities).authenticatedAccounts "req-2"
      = stTwoIdentities.authenticatedAccounts "req-2" ∧
    (ClearAuthenticatedRequest baseEnv stTwoIdentities).authenticatedSessions "req-2"
      = stTwoIdentities.authenticatedSessions "req-2" ∧
    (ClearAuthenticatedRequest baseEnv stTwoIdentities).authenticatedUsers "req-2"
      = stTwoIdentities.authenticatedUsers "req-2" :=
  C5_clear_removes_only_this_request baseEnv stTwoIdentities "req-2" (by decide)

/-- An account returned by getAccountFromSlug already carries its cached key,
so a further GetKey leaves it unchanged. -/
theorem getAccountFromSlug_ok_getKey (ds : Datastore) (s k : String) (a : Account)
    (h : getAccountFromSlug ds s k = .ok a) : (Account.getKey a).2 = a := by
  unfold getAccountFromSlug at h
  cases hf : ds.accounts.find? (fun e => e.2.slug = s) with
  | none => rw [hf] at h; simp at h
  | some e =>
    rw [hf] at h
    dsimp only at h
    split_ifs at h with hcond
    have h2 := Except.ok.inj h
    rw [← h2, Account.getKey_load]

/-- Claim C9 (confirmed): createSession only ever returns a nil error, so the
session-creation-failure branches of authenticateAccount and
authenticateAccountByUser are unreachable: authenticateAccount agrees exactly
with the credential lookup getAccountFromSlug, and authenticateAccountByUser
succeeds exactly when AuthenticateUser succeeds and the owning account
resolves (failing with the orphaned-user error when it does not). -/
theorem C9_session_creation_infallible :
    (∀ env st acct user, (createSession env st acct user).err = none) ∧
    (∀ env st s k, (authenticateAccount env st s k).1 = getAccountFromSlug st.ds s k) ∧
    (∀ env st un pw,
      (∀ e st2, AuthenticateUser env st un pw = some (.error e, st2) →
        authenticateAccountByUser env st un pw = some (.error e, st2)) ∧
      (∀ u st2, AuthenticateUser env st un pw = some (.ok u, st2) →
        ((User.Account env st2 u).1 = none →
          authenticateAccountByUser env st un pw = some (.error .orphanedUser, st2)) ∧
        (∀ a, (User.Account env st2 u).1 = some a →
          ∃ st3, authenticateAccountByUser env st un pw
            = some (.ok (Account.getKey a).2, st3)))) := by
  refine ⟨fun env st acct user => rfl, ?_, ?_⟩
  · intro env st s k
    unfold authenticateAccount
    cases h : getAccountFromSlug st.ds s k with
    | error e => simp
    | ok a =>
      simp only [createSession]
      rw [getAccountFromSlug_ok_getKey st.ds s k a h]
  · intro env st un pw
    constructor
    · intro e st2 hAU
      unfold authenticateAccountByUser
      rw [hAU]
    · intro u st2 hAU
      constructor
      · intro hnone
        unfold authenticateAccountByUser
        rw [hAU]
        dsimp only
        cases hp : User.Account env st2 u with
        | mk o u2 =>
          rw [hp] at hnone
          dsimp only at hnone
          subst hnone
          rfl
      · intro a ha
        unfold authenticateAccountByUser
        rw [hAU]
        dsimp only
        cases hp : User.Account env st2 u with
        | mk o u2 =>
          rw [hp] at ha
          dsimp only at ha
          subst ha
          exact ⟨(createSession env st2 a (some u2)).st, rfl⟩

/-- Witness for C9: creating a session for acme, authenticating acme by slug
and key, and authenticating through alice / pw, in the base world. -/
theorem C9_session_creation_infallible_witness :
    (createSession baseEnv baseSt acmeAccount none).err = none ∧
    (authenticateAccount baseEnv baseSt "acme" "k1").1
      = getAccountFromSlug baseSt.ds "acme" "k1" ∧
    (authenticateAccountByUser baseEnv baseSt "alice" "pw").map (fun r => r.1)
      = some (.ok acmeLoaded) := by
  refine ⟨C9_session_creation_infallible.1 baseEnv baseSt acmeAccount none,
    C9_session_creation_infallible.2.1 baseEnv baseSt "acme" "k1", ?_⟩
  obtain ⟨st3, h3⟩ :=
    (((C9_session_creation_infallible.2.2 baseEnv baseSt "alice" "pw").2 aliceSaved
      stAfterUserAuth rfl).2) acmeAccount rfl
  rw [h3]
  rfl

/-- Witness for C8: the constant cipher oracle, a 16-byte key, the all-zero
and all-one IVs and the payload [1, 2, 3]. -/
theorem C8_encrypt_decrypt_roundtrip_witness :
    decrypt constCipher (some (List.replicate 16 7)) (List.replicate 16 0 ++ [4, 7, 6])
      = .ok [1, 2, 3] ∧
    (List.replicate 16 0 ++ [4, 7, 6] : Bytes) ≠ (List.replicate 16 1 ++ [4, 7, 6] : Bytes) ∧
    decrypt constCipher (some (List.replicate 16 7)) (List.replicate 16 1 ++ [4, 7, 6])
      = .ok [1, 2, 3] := by
  have h := C8_encrypt_decrypt_roundtrip constCipher (List.replicate 16 7)
    (List.replicate 16 0) (List.replicate 16 1) [1, 2, 3]
    (by decide) (by decide) (by decide) (by decide) (fun _ => rfl)
  have h2 := h.2 (List.replicate 16 0 ++ [4, 7, 6]) (List.replicate 16 1 ++ [4, 7, 6])
    (by decide) (by decide)
  exact ⟨h.1 (List.replicate 16 0 ++ [4, 7, 6]) (by decide), h2.1, h2.2⟩

/-- Claim C1 (code_bug): a request carrying X-username and X-password but no
X-account does NOT take the user-authentication path.  The source reads the
header named by Headers["slug"], but "slug" is not a key of the Headers map
(its keys are account, key, session, username, password), so the lookup
yields "" and the code falls through to the session-token path, which here
fails with Unauthenticated — even though the credentials for alice would
authenticate successfully, as the last conjunct shows. -/
theorem C1_username_headers_ignored :
    Headers "username" = "X-username" ∧
    reqUserCreds.headers "X-username" = "alice" ∧
    reqUserCreds.headers "X-password" = "pw" ∧
    reqUserCreds.headers "X-account" = "" ∧
    Headers "slug" = "" ∧
    (AuthenticateRequest baseEnv baseSt reqUserCreds Response.empty).map (fun r => r.1)
      = some (.error .unauthenticated) ∧
    (authenticateAccountByUser baseEnv baseSt "alice" "pw").map (fun r => r.1)
      = some (.ok acmeLoaded) :=
  ⟨rfl, rfl, rfl, rfl, rfl, rfl, rfl⟩

/-- Claim C6 (code_bug): on a successful session send, the token is placed in
the X-session response header and that name is exposed through
Access-Control-Expose-Headers, but the cookie domain is the EMPTY string, not
the Origin host with the port stripped: the source assigns the domain only
when url.Parse fails (the condition reads err != nil), so for the parseable
Origin http://example.com:8080 the domain stays "".  The port-stripping
helper itself would have produced "example.com". -/
theorem C6_cookie_domain_left_empty :
    ((sendSession envOrigin reqWithOrigin Response.empty tokSession).map
        (fun rw => (rw.headers "X-session", rw.headers "Access-Control-Expose-Headers",
          rw.cookies)))
      = some (["tok123"], ["X-session"],
          [{ name := "X-session", value := "tok123", domain := "", path := "/" }]) ∧
    stripPort "example.com:8080" = "example.com" ∧
    ("" : String) ≠ "example.com" :=
  ⟨rfl, by decide, by decide⟩

/-- Claim C3 counterexample: the middleware calls ClearAuthenticatedRequest
as a plain statement after the wrapped operation, not deferred, so when the
wrapped operation panics the request identity mapping survives the
middleware: after this run the account mapping for "req-1" still holds the
authenticated account. -/
theorem C3_panic_leaves_identity_cached :
    (AuthenticatedFunc baseEnv panickingFn reqSlugCreds Response.empty baseSt).panicked
      = true ∧
    (AuthenticatedFunc baseEnv panickingFn reqSlugCreds Response.empty
      baseSt).st.authenticatedAccounts "req-1" = some acmeLoaded ∧
    some acmeLoaded ≠ (none : Option Account) :=
  ⟨rfl, rfl, by decide⟩

/-- Claim C3 (corrected): the cleanup is guaranteed only for wrapped
operations that return (normally or after writing a failure response), not
for ones that panic.  Amended statement: whenever authentication succeeds and
the wrapped operation — in any of the two supported shapes under
AuthenticatedFunc, or a handler under AuthenticatedHandler — completes
without panicking, all three request identity mappings for this request
identifier are cleared when the middleware returns. -/
theorem C3_clear_runs_after_wrapped_op :
    (∀ env (f : Response → Request → Account → St → HandlerRun) req rw st acct rw1 st1,
      AuthenticateRequest env st req rw = some (.ok acct, rw1, st1) →
      (f rw1 req acct st1).panicked = false →
      (AuthenticatedFunc env (.authFn f) req rw st).st.authenticatedAccounts env.reqId
        = none ∧
      (AuthenticatedFunc env (.authFn f) req rw st).st.authenticatedSessions env.reqId
        = none ∧
      (AuthenticatedFunc env (.authFn f) req rw st).st.authenticatedUsers env.reqId
        = none) ∧
    (∀ env (f : Response → Request → St → HandlerRun) req rw st acct rw1 st1,
      AuthenticateRequest env st req rw = some (.ok acct, rw1, st1) →
      (f rw1 req st1).panicked = false →
      (AuthenticatedFunc env (.handlerFn f) req rw st).st.authenticatedAccounts env.reqId
        = none ∧
      (AuthenticatedFunc env (.handlerFn f) req rw st).st.authenticatedSessions env.reqId
        = none ∧
      (AuthenticatedFunc env (.handlerFn f) req rw st).st.authenticatedUsers env.reqId
        = none) ∧
    (∀ env (handler : Response → Request → St → HandlerRun) req rw st acct rw1 st1,
      AuthenticateRequest env st req rw = some (.ok acct, rw1, st1) →
      (handler rw1 req st1).panicked = false →
      (AuthenticatedHandler env handler req rw st).st.authenticatedAccounts env.reqId
        = none ∧
      (AuthenticatedHandler env handler req rw st).st.authenticatedSessions env.reqId
        = none ∧
      (AuthenticatedHandler env handler req rw st).st.authenticatedUsers env.reqId
        = none) := by
  refine ⟨?_, ?_, ?_⟩
  · intro env f req rw st acct rw1 st1 hauth hpan
    refine ⟨?_, ?_, ?_⟩ <;>
      simp [AuthenticatedFunc, hauth, hpan, ClearAuthenticatedRequest, upd]
  · intro env f req rw st acct rw1 st1 hauth hpan
    refine ⟨?_, ?_, ?_⟩ <;>
      simp [AuthenticatedFunc, hauth, hpan, ClearAuthenticatedRequest, upd]
  · intro env handler req rw st acct rw1 st1 hauth hpan
    refine ⟨?_, ?_, ?_⟩ <;>
      simp [AuthenticatedHandler, hauth, hpan, ClearAuthenticatedRequest, upd]

/-- Witness for the amended C3: the acme request with a calm AuthFunc wrapped
operation; afterwards no identity mapping remains for "req-1". -/
theorem C3_clear_runs_after_wrapped_op_witness :
    (AuthenticatedFunc baseEnv (.authFn calmFn) reqSlugCreds Response.empty
      baseSt).st.authenticatedAccounts "req-1" = none ∧
    (AuthenticatedFunc baseEnv (.authFn calmFn) reqSlugCreds Response.empty
      baseSt).st.authenticatedSessions "req-1" = none ∧
    (AuthenticatedFunc baseEnv (.authFn calmFn) reqSlugCreds Response.empty
      baseSt).st.authenticatedUsers "req-1" = none :=
  C3_clear_runs_after_wrapped_op.1 baseEnv calmFn reqSlugCreds Response.empty baseSt
    _ _ _ rfl rfl

end AEA
